import Mathlib

/-!
Verification development for the SkynetLabs promoter credit-ledger service.

The definitions below are a shallow embedding of the Go source:
  - database/user.go       (CreditUser, NewUser, NewTxn, UserBalance,
                            userCredit, userSpent)
  - database/schema.go     (schema)
  - database/database.go   (collection name constants)
  - api/handlers.go        (paymentPOST)
  - api/routes.go          (PaymentPOST.Validate)
  - api/api.go             (DBTxnRetryCount, WithDBSession)

The MongoDB document store is modelled as lists of records per collection.
Monetary amounts (Go float64) are modelled as exact rationals; the claims at
stake concern record multiplicity and aggregation structure, not float
rounding.  Every Mongo collection has a primary-key index on the document id
field, so an insert whose id is already present reports a duplicate-key
error; the users collection receives an auto-generated object id and, per
schema() in database/schema.go, carries no further unique index, so inserting
a user document never reports a duplicate key.  Transient infrastructure
failures (write conflicts, other errors) are modelled by explicitly injected
faults so that abort/rollback paths are part of the state space.
-/

namespace Promoter

/-- Collection name constant from database/database.go. -/
def DBName : String := "promoter"

/-- Collection name constant from database/database.go. -/
def collSubscriptions : String := "subscriptions"

/-- Collection name constant from database/database.go. -/
def collTnxs : String := "txns"

/-- Collection name constant from database/database.go. -/
def collUsers : String := "users"

/-- One mongo.IndexModel from database/schema.go: the index key document, the
index name set via SetName, and whether SetUnique was applied (it never is in
the source). -/
structure IndexModel where
  keys : List (String × Int)
  name : String
  unique : Bool
deriving DecidableEq, Repr

/-- The schema function of database/schema.go: the collections and the indexes
ensured for each of them by ensureDBSchema.  Note that the map literal in the
source has entries only for collSubscriptions and collTnxs, and that no index
model in it sets the unique option. -/
def schema : List (String × List IndexModel) :=
  [ (collSubscriptions,
      [ { keys := [("sub", 1)], name := "sub", unique := false },
        { keys := [("from", 1)], name := "from", unique := false },
        { keys := [("to", 1)], name := "to", unique := false } ]),
    (collTnxs,
      [ { keys := [("price", 1)], name := "price", unique := false } ]) ]

/-- The User struct of database/user.go: a portal user identified by sub.
The stored document gets an auto-generated object id. -/
structure User where
  sub : String
deriving DecidableEq, Repr

/-- The Subscription struct of database/user.go (dead in the covered core:
no code path inserts or reads subscription documents).  The time.Time fields
From and To are modelled as integers. -/
structure Subscription where
  id : String
  sub : String
  tier : Int
  fromTime : Int
  toTime : Int
  price : Rat
deriving DecidableEq, Repr

/-- The Txn struct of database/user.go: a processed payment.  Its ID field is
stored as the document id, so the store's primary-key index makes it unique. -/
structure Txn where
  id : String
  sub : String
  amount : Rat
deriving DecidableEq, Repr

/-- The document store state: the users and txns collections written by the
core, and the subscriptions collection, which no code path of the core ever
writes. -/
structure Store where
  users : List User
  txns : List Txn
  subscriptions : List Subscription
deriving DecidableEq, Repr

/-- The empty store. -/
def Store.empty : Store := { users := [], txns := [], subscriptions := [] }

/-- Error classes reported by the store driver, per the mongo driver
classification used in the source: duplicate-key errors
(mongo.IsDuplicateKeyError), write-conflict errors (retried by
WithDBSession), and all other errors. -/
inductive DBErr where
  | duplicateKey
  | writeConflict
  | other
deriving DecidableEq, Repr

/-- An infrastructure fault injected into a single insert operation.  A
duplicate-key error is not injectable: it arises only from the actual state
of the collection's unique (primary-key) index. -/
inductive InsFault where
  | writeConflict
  | other
deriving DecidableEq, Repr

/-- The driver error reported for an injected fault. -/
def InsFault.toDBErr : InsFault → DBErr
  | .writeConflict => .writeConflict
  | .other => .other

/-- NewUser from database/user.go: InsertOne of a User document into the
users collection.  The document id is auto-generated and schema() creates no
unique index on sub, so absent an injected infrastructure fault the insert
always succeeds, even when a user with the same sub is already present. -/
def NewUser (st : Store) (sub : String) (fault : Option InsFault) :
    Except DBErr Store :=
  match fault with
  | some f => .error f.toDBErr
  | none => .ok { st with users := st.users ++ [{ sub := sub }] }

/-- NewTxn from database/user.go: InsertOne of a Txn document into the txns
collection.  The txn id is the document id, so the insert reports a
duplicate-key error when a txn with that id is already present. -/
def NewTxn (st : Store) (id : String) (sub : String) (amount : Rat)
    (fault : Option InsFault) : Except DBErr Store :=
  match fault with
  | some f => .error f.toDBErr
  | none =>
    if st.txns.any (fun t => t.id = id) then .error .duplicateKey
    else .ok { st with txns := st.txns ++ [{ id := id, sub := sub, amount := amount }] }

/-- CreditUser from database/user.go.  First ensure the user exists by
inserting it, ignoring a duplicate-key error; then register the txn, treating
a duplicate-key error as an already-processed payment (success, nothing else
written).  Any other error propagates so that the enclosing transaction
aborts.  The faults f1 and f2 are the injected infrastructure faults of the
two inserts. -/
def CreditUser (st : Store) (sub : String) (amount : Rat) (txnID : String)
    (f1 f2 : Option InsFault) : Except DBErr Store :=
  let step1 : Except DBErr Store :=
    match NewUser st sub f1 with
    | .error .duplicateKey => .ok st
    | .error e => .error e
    | .ok st1 => .ok st1
  match step1 with
  | .error e => .error e
  | .ok st1 =>
    match NewTxn st1 txnID sub amount f2 with
    | .error .duplicateKey => .ok st1
    | .error e => .error e
    | .ok st2 => .ok st2

/-- The price entry of a stored Txn document: the Go Txn struct has no Price
field, so the marshalled bson document contains no price key at all, and the
aggregation sum over that field contributes zero for every txn document. -/
def txnPrice (_t : Txn) : Option Rat := none

/-- userCredit from database/user.go: aggregate over the txns collection,
matching on sub and summing the amount field.  When no document matches, the
aggregation cursor yields no row and the zero value is returned. -/
def userCredit (st : Store) (sub : String) : Rat :=
  let matched := st.txns.filter (fun t => t.sub = sub)
  if matched.isEmpty then 0
  else (matched.map (fun t => t.amount)).sum

/-- userSpent from database/user.go: aggregate over the txns collection
(collTnxs in the source, not a separate spend collection), matching on sub
and summing the price field, which no Txn document carries.  When no document
matches, the aggregation cursor yields no row and the zero value is
returned. -/
def userSpent (st : Store) (sub : String) : Rat :=
  let matched := st.txns.filter (fun t => t.sub = sub)
  if matched.isEmpty then 0
  else (matched.map (fun t => ((txnPrice t).getD 0))).sum

/-- UserBalance from database/user.go: credit minus spent. -/
def UserBalance (st : Store) (sub : String) : Rat :=
  userCredit st sub - userSpent st sub

/-- Specification-side balance, for the refinement comparison of the Balance
Calculator.  Modelled from the spec: credited is the sum of amount over all
TransactionRecords for sub, spent is the sum of price over all SpendRecords
for sub; the reserved spend collection is the subscriptions collection
(indexed on sub, price field in the schema), which the core never
populates. -/
def specBalance (st : Store) (sub : String) : Rat :=
  ((st.txns.filter (fun t => t.sub = sub)).map (fun t => t.amount)).sum -
    ((st.subscriptions.filter (fun s => s.sub = sub)).map (fun s => s.price)).sum

/-- One committed-or-aborted payment-crediting request: the sub, amount and
txn id of the payment notification, together with the injected infrastructure
faults of the two inserts performed by CreditUser. -/
structure CreditOp where
  sub : String
  amount : Rat
  txnID : String
  f1 : Option InsFault
  f2 : Option InsFault
deriving DecidableEq, Repr

/-- The effect of one CreditUser call executed inside one unit of work, as
the transactional write path runs it: when CreditUser returns an error the
unit of work aborts and the store rolls back to its previous state; when it
returns success the unit of work commits. -/
def creditStep (st : Store) (op : CreditOp) : Store :=
  match CreditUser st op.sub op.amount op.txnID op.f1 op.f2 with
  | .ok st1 => st1
  | .error _ => st

/-- The store state reached from the empty store by a sequence of
payment-crediting requests. -/
def run (ops : List CreditOp) : Store :=
  ops.foldl creditStep Store.empty

/-- The PaymentPOST request body type of api/routes.go, after JSON
decoding. -/
structure PaymentPOST where
  txnID : String
  sub : String
  credits : Rat
deriving DecidableEq, Repr

/-- Validate from api/routes.go: returns the validation error message, or
none when the payment information is valid and complete. -/
def PaymentPOST.Validate (p : PaymentPOST) : Option String :=
  if p.credits ≤ 0 then some "non-positive credits amount"
  else if p.sub = "" then some "missing or empty sub"
  else if p.txnID = "" then some "missing or empty txn ID"
  else none

/-- An HTTP response as it reaches a response sink: status code and body. -/
structure Response where
  status : Nat
  body : String
deriving DecidableEq, Repr

/-- The observable outcome of one paymentPOST handler execution: the response
it records, the store as left by its writes inside the unit of work, and
whether CreditUser was invoked. -/
structure HandlerResult where
  response : Response
  store : Store
  creditUserCalled : Bool
deriving DecidableEq, Repr

/-- The message attached to a driver error when paymentPOST reports it. -/
def DBErr.message : DBErr → String
  | .duplicateKey => "duplicate key error"
  | .writeConflict => "write conflict"
  | .other => "internal error"

/-- paymentPOST from api/handlers.go, after the JSON body has been decoded
into a PaymentPOST value: validate, returning status 400 without touching
storage on failure; otherwise call CreditUser, returning status 500 on error
(which aborts the unit of work, so the store is unchanged) and the success
status on success.  WriteSuccess is modelled from the spec: success is an
empty body with the success status 204. -/
def paymentPOST (p : PaymentPOST) (st : Store) (f1 f2 : Option InsFault) :
    HandlerResult :=
  match p.Validate with
  | some msg => { response := { status := 400, body := msg },
                  store := st, creditUserCalled := false }
  | none =>
    match CreditUser st p.sub p.credits p.txnID f1 f2 with
    | .error e => { response := { status := 500, body := e.message },
                    store := st, creditUserCalled := true }
    | .ok st1 => { response := { status := 204, body := "" },
                   store := st1, creditUserCalled := true }

/-- DBTxnRetryCount from api/api.go: the number of times an API call is
retried when it runs into transaction errors. -/
def DBTxnRetryCount : Nat := 5

/-- Modelled from the spec: the state of the Buffering Response Adapter
(the MongoWriter of api/api.go, whose own source file is not part of the
covered sources) after one handler invocation.  It records a status code, a
body payload and an error classification, and never writes to the real sink
while the handler runs; errorStatus is zero exactly when the handler recorded
no error (the accessor ErrorStatus of the source), errorBuffer is the
recorded error body (ErrorBuffer), failedWithWriteConflict is the conflict
classification of the recorded error (FailedWithWriteConflict), and
successResponse is the recorded success response, flushed at the success exit
of WithDBSession. -/
structure MongoWriter where
  errorStatus : Nat
  errorBuffer : String
  failedWithWriteConflict : Bool
  successResponse : Response
deriving DecidableEq, Repr

/-- The environment of one request handled by WithDBSession: whether reading
the request body succeeds, whether creating a session and a transaction
writer succeeds on each attempt, whether the request context is already done
when the retry decision of each attempt is taken, and the handler behaviour,
as a function from the attempt index and the durable store at the start of
the attempt to the adapter state recorded by the attempt and the store as
modified inside the attempt's unit of work. -/
structure Env where
  bodyReadOk : Bool
  sessionOk : Nat → Bool
  writerOk : Nat → Bool
  ctxDone : Nat → Bool
  handler : Nat → Store → MongoWriter × Store

/-- The observable result of one request handled by WithDBSession: the writes
that reached the real response sink, the durable store after the request, and
how many times the wrapped handler was invoked. -/
structure RunResult where
  sinkWrites : List Response
  durable : Store
  handlerCalls : Nat
deriving DecidableEq, Repr

/-- One execution of the handleFn closure of WithDBSession in api/api.go,
together with the retry loop around it, recursing on the remaining-retries
counter.  Per attempt: failing to start a session or a transaction writes an
internal error to the real sink and ends the request; a handler run that
records no error commits its unit of work and ends the request with the
success response on the sink (the source comments that status and content are
already written at that point); a conflict-classified recorded error with
retries left and a live request context aborts the unit of work, decrements
the counter and retries; otherwise the recorded error status and body are
written to the real sink, the unit of work aborts, and the request ends.
Commit on success and abort on error are modelled from the spec (end the
unit of work: commit if the handler did not record an error, abort
otherwise). -/
def attemptLoop (env : Env) (st : Store) : Nat → Nat → RunResult
  | attempt, retriesLeft =>
    if env.sessionOk attempt = false then
      { sinkWrites := [{ status := 500, body := "failed to start a new mongo session" }],
        durable := st, handlerCalls := 0 }
    else if env.writerOk attempt = false then
      { sinkWrites := [{ status := 500, body := "failed to start a new transaction" }],
        durable := st, handlerCalls := 0 }
    else
      let res := env.handler attempt st
      let mw := res.1
      if mw.errorStatus = 0 then
        { sinkWrites := [mw.successResponse], durable := res.2, handlerCalls := 1 }
      else if mw.failedWithWriteConflict ∧ ¬ env.ctxDone attempt then
        match retriesLeft with
        | r + 1 =>
          let rest := attemptLoop env st (attempt + 1) r
          { sinkWrites := rest.sinkWrites, durable := rest.durable,
            handlerCalls := rest.handlerCalls + 1 }
        | 0 =>
          { sinkWrites := [{ status := mw.errorStatus, body := mw.errorBuffer }],
            durable := st, handlerCalls := 1 }
      else
        { sinkWrites := [{ status := mw.errorStatus, body := mw.errorBuffer }],
          durable := st, handlerCalls := 1 }

/-- WithDBSession from api/api.go: buffer the request body once (a read
failure writes status 400 and ends the request without invoking the
handler), then run the retry loop with the remaining-retries counter started
at DBTxnRetryCount. -/
def WithDBSession (env : Env) (st : Store) : RunResult :=
  if env.bodyReadOk then attemptLoop env st 0 DBTxnRetryCount
  else { sinkWrites := [{ status := 400, body := "failed to read body" }],
         durable := st, handlerCalls := 0 }

/-- n successive CreditUser calls with one and the same payment triple, each
executed in its own committed-or-aborted unit of work. -/
def iterCredit (op : CreditOp) (st : Store) : Nat → Store
  | 0 => st
  | n + 1 => creditStep (iterCredit op st n) op

/-- A first concrete payment-crediting request for sub alice. -/
def aliceOp1 : CreditOp :=
  { sub := "alice", amount := 5, txnID := "tx1", f1 := none, f2 := none }

/-- A second concrete payment-crediting request for sub alice with a fresh
txn id. -/
def aliceOp2 : CreditOp :=
  { sub := "alice", amount := 7, txnID := "tx2", f1 := none, f2 := none }

/-- An adapter state recording a conflict-classified error, as left behind by
a handler attempt that ran into a write conflict. -/
def conflictWriter : MongoWriter :=
  { errorStatus := 500, errorBuffer := "write conflict",
    failedWithWriteConflict := true,
    successResponse := { status := 204, body := "" } }

/-- An adapter state recording a non-conflict error. -/
def fatalWriter : MongoWriter :=
  { errorStatus := 500, errorBuffer := "internal error",
    failedWithWriteConflict := false,
    successResponse := { status := 204, body := "" } }

/-- A request environment in which every attempt records a conflict-classified
error, the body reads fine, sessions and transactions always start, and the
caller's deadline never expires. -/
def allConflictEnv : Env :=
  { bodyReadOk := true
    sessionOk := fun _ => true
    writerOk := fun _ => true
    ctxDone := fun _ => false
    handler := fun _ st => (conflictWriter, st) }

/-- A request environment in which the first attempt records a non-conflict
error. -/
def fatalEnv : Env :=
  { bodyReadOk := true
    sessionOk := fun _ => true
    writerOk := fun _ => true
    ctxDone := fun _ => false
    handler := fun _ st => (fatalWriter, st) }

/- ------------------------------------------------------------------ -/
/- Helper lemmas about the Balance Calculator.                        -/
/- ------------------------------------------------------------------ -/

theorem sum_map_txnPrice_zero (l : List Txn) :
    (l.map (fun t => ((txnPrice t).getD 0))).sum = 0 := by
  induction l with
  | nil => simp
  | cons h t ih => simp [txnPrice, ih]

theorem userSpent_eq_zero (st : Store) (sub : String) : userSpent st sub = 0 := by
  simp only [userSpent]
  split
  · rfl
  · exact sum_map_txnPrice_zero _

theorem userCredit_eq_sum (st : Store) (sub : String) :
    userCredit st sub =
      ((st.txns.filter (fun t => t.sub = sub)).map (fun t => t.amount)).sum := by
  simp only [userCredit]
  cases hf : st.txns.filter (fun t => t.sub = sub) with
  | nil => simp [hf]
  | cons a l => simp [hf]

theorem UserBalance_eq_sum (st : Store) (sub : String) :
    UserBalance st sub =
      ((st.txns.filter (fun t => t.sub = sub)).map (fun t => t.amount)).sum := by
  simp [UserBalance, userCredit_eq_sum, userSpent_eq_zero]

/-- C5: the Balance Calculator returns credited minus spent, where credited
is the sum of amount over the transaction records for sub and spent is the
sum of price over the (never populated) spend records for sub; it performs no
writes (it is a pure function of the store), and a sub with no matching
records gets balance zero rather than an error. -/
theorem userBalance_correct (st : Store) (sub : String)
    (hs : st.subscriptions = []) :
    UserBalance st sub = specBalance st sub ∧
    userSpent st sub = 0 ∧
    (st.txns.filter (fun t => t.sub = sub) = [] → UserBalance st sub = 0) := by
  refine ⟨?_, userSpent_eq_zero st sub, ?_⟩
  · simp [specBalance, hs, UserBalance_eq_sum]
  · intro h
    simp [UserBalance_eq_sum, h]

/-- C5 witness: the balance equations evaluated at the empty store. -/
theorem userBalance_correct_witness :
    UserBalance Store.empty "alice" = specBalance Store.empty "alice" ∧
    userSpent Store.empty "alice" = 0 ∧
    (Store.empty.txns.filter (fun t => t.sub = "alice") = [] →
      UserBalance Store.empty "alice" = 0) :=
  userBalance_correct Store.empty "alice" rfl

/- ------------------------------------------------------------------ -/
/- Validation of payment requests.                                    -/
/- ------------------------------------------------------------------ -/

theorem validate_eq_none_iff (p : PaymentPOST) :
    p.Validate = none ↔ (0 < p.credits ∧ p.sub ≠ "" ∧ p.txnID ≠ "") := by
  simp only [PaymentPOST.Validate]
  split_ifs with h1 h2 h3 <;> simp_all

/-- C4: a POST payment request whose parsed body has non-positive credits, an
empty sub or an empty txn id is answered with the client-error status 400,
the store is untouched and CreditUser is never invoked. -/
theorem paymentPOST_validates_before_io (p : PaymentPOST) (st : Store)
    (f1 f2 : Option InsFault)
    (h : p.credits ≤ 0 ∨ p.sub = "" ∨ p.txnID = "") :
    (paymentPOST p st f1 f2).response.status = 400 ∧
    (paymentPOST p st f1 f2).store = st ∧
    (paymentPOST p st f1 f2).creditUserCalled = false := by
  cases hV : p.Validate with
  | some msg => simp [paymentPOST, hV]
  | none =>
    exfalso
    rcases (validate_eq_none_iff p).mp hV with ⟨hc, hs2, ht⟩
    rcases h with h | h | h
    · exact absurd hc (not_lt.mpr h)
    · exact hs2 h
    · exact ht h

/-- C4 witness: a payment with credits negative five is rejected with status
400 without any store access. -/
theorem paymentPOST_validates_before_io_witness :
    (paymentPOST { txnID := "tx1", sub := "alice", credits := -5 }
        Store.empty none none).response.status = 400 ∧
    (paymentPOST { txnID := "tx1", sub := "alice", credits := -5 }
        Store.empty none none).store = Store.empty ∧
    (paymentPOST { txnID := "tx1", sub := "alice", credits := -5 }
        Store.empty none none).creditUserCalled = false :=
  paymentPOST_validates_before_io _ Store.empty none none (Or.inl (by decide))

/- ------------------------------------------------------------------ -/
/- The users collection has no unique index on sub.                   -/
/- ------------------------------------------------------------------ -/

/-- C3: the schema-ensuring step establishes no index at all on the users
collection (the schema map of database/schema.go has no entry for collUsers,
and none of its index models sets the unique option), so a second successful
CreditUser call for the same sub inserts a second User record instead of
reporting a uniqueness conflict: after the two credits for sub alice the
store holds two User records with that sub. -/
theorem users_sub_not_unique :
    schema.filter (fun e => e.1 = collUsers) = [] ∧
    schema.all (fun e => e.2.all (fun m => m.unique = false)) = true ∧
    ((run [aliceOp1, aliceOp2]).users.filter (fun u => u.sub = "alice")).length = 2 := by
  refine ⟨by decide, by decide, by decide⟩

/- ------------------------------------------------------------------ -/
/- The effect of one committed-or-aborted CreditUser call.            -/
/- ------------------------------------------------------------------ -/

theorem creditStep_fresh (st : Store) (op : CreditOp) (h1 : op.f1 = none)
    (h2 : op.f2 = none)
    (hfresh : st.txns.any (fun t => t.id = op.txnID) = false) :
    creditStep st op =
      { st with users := st.users ++ [{ sub := op.sub }],
                txns := st.txns ++
                  [{ id := op.txnID, sub := op.sub, amount := op.amount }] } := by
  simp [creditStep, CreditUser, NewUser, NewTxn, h1, h2, hfresh]

theorem creditStep_replay (st : Store) (op : CreditOp) (h1 : op.f1 = none)
    (h2 : op.f2 = none)
    (hdup : st.txns.any (fun t => t.id = op.txnID) = true) :
    creditStep st op = { st with users := st.users ++ [{ sub := op.sub }] } := by
  simp [creditStep, CreditUser, NewUser, NewTxn, h1, h2, hdup]

theorem iterCredit_state (st : Store) (sub : String) (amount : Rat)
    (txnID : String)
    (hfresh : st.txns.any (fun t => t.id = txnID) = false) (m : Nat) :
    iterCredit ⟨sub, amount, txnID, none, none⟩ st (m + 1) =
      { users := st.users ++ List.replicate (m + 1) { sub := sub },
        txns := st.txns ++ [{ id := txnID, sub := sub, amount := amount }],
        subscriptions := st.subscriptions } := by
  induction m with
  | zero =>
    show creditStep (iterCredit _ st 0) _ = _
    rw [show iterCredit ⟨sub, amount, txnID, none, none⟩ st 0 = st from rfl]
    rw [creditStep_fresh st _ rfl rfl hfresh]
    simp
  | succ k ih =>
    show creditStep (iterCredit _ st (k + 1)) _ = _
    rw [ih]
    rw [creditStep_replay _ _ rfl rfl (by simp)]
    simp [List.replicate_succ' (n := k + 1)]

/-- C1: starting from a store that does not yet record txnID, invoking
CreditUser with one and the same valid triple of sub, amount and txnID any
positive number of times raises the balance of sub by amount exactly once and
adds exactly one transaction record; every further invocation returns success
while writing nothing beyond the (index-free) user insert that precedes the
transaction-record insert, and that transaction-record insert reports a
duplicate-key conflict. -/
theorem creditUser_idempotent (st : Store) (sub : String) (amount : Rat)
    (txnID : String) (n : Nat) (hamount : 0 < amount) (hsub : sub ≠ "")
    (htxn : txnID ≠ "")
    (hfresh : st.txns.any (fun t => t.id = txnID) = false) (hn : 1 ≤ n) :
    UserBalance (iterCredit ⟨sub, amount, txnID, none, none⟩ st n) sub = UserBalance st sub + amount ∧
    (iterCredit ⟨sub, amount, txnID, none, none⟩ st n).txns = st.txns ++ [{ id := txnID, sub := sub, amount := amount }] ∧
    CreditUser (iterCredit ⟨sub, amount, txnID, none, none⟩ st n) sub amount txnID none none =
      .ok { iterCredit ⟨sub, amount, txnID, none, none⟩ st n with users := (iterCredit ⟨sub, amount, txnID, none, none⟩ st n).users ++ [{ sub := sub }] } ∧
    NewTxn { iterCredit ⟨sub, amount, txnID, none, none⟩ st n with users := (iterCredit ⟨sub, amount, txnID, none, none⟩ st n).users ++ [{ sub := sub }] } txnID sub amount none = .error .duplicateKey := by
  obtain ⟨m, rfl⟩ : ∃ m, n = m + 1 := ⟨n - 1, by omega⟩
  rw [iterCredit_state st sub amount txnID hfresh m]
  refine ⟨?_, rfl, ?_, ?_⟩
  · rw [UserBalance_eq_sum, UserBalance_eq_sum]
    simp
  · simp [CreditUser, NewUser, NewTxn]
  · simp [NewTxn]

/-- C1 witness: two calls crediting sub alice with amount two for txn id tx1
from the empty store. -/
theorem creditUser_idempotent_witness :
    UserBalance (iterCredit ⟨"alice", 2, "tx1", none, none⟩ Store.empty 2) "alice" = UserBalance Store.empty "alice" + 2 ∧
    (iterCredit ⟨"alice", 2, "tx1", none, none⟩ Store.empty 2).txns = Store.empty.txns ++ [{ id := "tx1", sub := "alice", amount := 2 }] ∧
    CreditUser (iterCredit ⟨"alice", 2, "tx1", none, none⟩ Store.empty 2) "alice" 2 "tx1" none none =
      .ok { iterCredit ⟨"alice", 2, "tx1", none, none⟩ Store.empty 2 with users := (iterCredit ⟨"alice", 2, "tx1", none, none⟩ Store.empty 2).users ++ [{ sub := "alice" }] } ∧
    NewTxn { iterCredit ⟨"alice", 2, "tx1", none, none⟩ Store.empty 2 with users := (iterCredit ⟨"alice", 2, "tx1", none, none⟩ Store.empty 2).users ++ [{ sub := "alice" }] } "tx1" "alice" 2 none = .error .duplicateKey :=
  creditUser_idempotent Store.empty "alice" 2 "tx1" 2 (by decide) (by decide)
    (by decide) rfl (by decide)

/- ------------------------------------------------------------------ -/
/- Reachable-state invariants.                                        -/
/- ------------------------------------------------------------------ -/

theorem creditStep_cases (st : Store) (op : CreditOp) :
    creditStep st op = st ∨
    creditStep st op = { st with users := st.users ++ [{ sub := op.sub }] } ∨
    (creditStep st op = { st with users := st.users ++ [{ sub := op.sub }], txns := st.txns ++ [{ id := op.txnID, sub := op.sub, amount := op.amount }] } ∧
      st.txns.any (fun t => t.id = op.txnID) = false) := by
  obtain ⟨sub, amount, txnID, f1, f2⟩ := op
  cases f1 with
  | some f => cases f <;> exact Or.inl rfl
  | none =>
    cases f2 with
    | some f => cases f <;> exact Or.inl rfl
    | none =>
      by_cases hdup : st.txns.any (fun t => t.id = txnID) = true
      · exact Or.inr (Or.inl (creditStep_replay st _ rfl rfl hdup))
      · have hfresh : st.txns.any (fun t => t.id = txnID) = false :=
          Bool.not_eq_true _ ▸ Bool.eq_false_iff.mpr hdup
        exact Or.inr (Or.inr ⟨creditStep_fresh st _ rfl rfl hfresh, hfresh⟩)

theorem foldl_creditStep_invariant {P : Store → Prop}
    (hstep : ∀ st op, P st → P (creditStep st op)) :
    ∀ (ops : List CreditOp) (st : Store), P st → P (ops.foldl creditStep st) := by
  intro ops
  induction ops with
  | nil => intro st h; exact h
  | cons op rest ih => intro st h; exact ih (creditStep st op) (hstep st op h)

/-- C6: in every store state reachable by a sequence of payment-crediting
requests (with arbitrary injected infrastructure faults), at most one
transaction record exists for a given id: the record id is the document
primary key, and a second insert with the same id reports a duplicate-key
condition instead of inserting. -/
theorem txn_id_unique (ops : List CreditOp) (id : String) :
    ((run ops).txns.filter (fun t => t.id = id)).length ≤ 1 := by
  have key : ∀ st', (∀ i, ((st'.txns.filter (fun t => t.id = i)).length ≤ 1)) →
      ∀ i, (((ops.foldl creditStep st').txns.filter (fun t => t.id = i)).length ≤ 1) := by
    intro st' h
    refine foldl_creditStep_invariant
      (P := fun s => ∀ i, ((s.txns.filter (fun t => t.id = i)).length ≤ 1)) ?_ ops st' h
    intro st1 op hinv i
    rcases creditStep_cases st1 op with hc | hc | ⟨hc, hfresh⟩
    · rw [hc]; exact hinv i
    · rw [hc]; exact hinv i
    · rw [hc]
      simp only [List.filter_append, List.length_append]
      by_cases hid : op.txnID = i
      · have hnil : st1.txns.filter (fun t => t.id = i) = [] := by
          rw [List.filter_eq_nil_iff]
          intro t ht
          subst hid
          simpa using List.any_eq_false.mp hfresh t ht
        rw [hnil]
        simp [hid]
      · have hone : (([{ id := op.txnID, sub := op.sub, amount := op.amount }] : List Txn).filter (fun t => t.id = i)) = [] := by
          simp [hid]
        rw [hone]
        simpa using hinv i
  exact key Store.empty (by intro i; simp [Store.empty]) id

/-- C7: in every reachable store state, a transaction record referencing a
sub is accompanied by a user record for that sub: CreditUser performs the
user insert before the transaction-record insert within the same unit of
work, and aborts (rolling back both) when the user insert fails with
anything other than a uniqueness conflict. -/
theorem txn_sub_has_user (ops : List CreditOp) :
    (run ops).txns.all (fun t => (run ops).users.any (fun u => u.sub = t.sub)) = true := by
  refine foldl_creditStep_invariant
    (P := fun s => s.txns.all (fun t => s.users.any (fun u => u.sub = t.sub)) = true)
    ?_ ops Store.empty (by decide)
  intro st1 op h
  simp only [List.all_eq_true, List.any_eq_true, decide_eq_true_eq] at h
  rcases creditStep_cases st1 op with hc | hc | ⟨hc, _⟩
  · rw [hc]
    simp only [List.all_eq_true, List.any_eq_true, decide_eq_true_eq]
    exact h
  · rw [hc]
    simp only [List.all_eq_true, List.any_eq_true, decide_eq_true_eq, List.mem_append]
    intro t ht
    obtain ⟨u, hu, he⟩ := h t ht
    exact ⟨u, Or.inl hu, he⟩
  · rw [hc]
    simp only [List.all_eq_true, List.any_eq_true, decide_eq_true_eq,
      List.mem_append, List.mem_singleton]
    intro t ht
    rcases ht with ht | ht
    · obtain ⟨u, hu, he⟩ := h t ht
      exact ⟨u, Or.inl hu, he⟩
    · subst ht
      exact ⟨{ sub := op.sub }, Or.inr rfl, rfl⟩

/- ------------------------------------------------------------------ -/
/- The retry orchestrator.                                            -/
/- ------------------------------------------------------------------ -/

theorem attemptLoop_sink_length (env : Env) :
    ∀ (r attempt : Nat) (st : Store),
      (attemptLoop env st attempt r).sinkWrites.length = 1 := by
  intro r
  induction r with
  | zero =>
    intro attempt st
    rw [attemptLoop]
    dsimp only
    split_ifs <;> rfl
  | succ k ih =>
    intro attempt st
    rw [attemptLoop]
    dsimp only
    split_ifs <;> simpa using ih (attempt + 1) st

theorem attemptLoop_calls_le (env : Env) :
    ∀ (r attempt : Nat) (st : Store),
      (attemptLoop env st attempt r).handlerCalls ≤ r + 1 := by
  intro r
  induction r with
  | zero =>
    intro attempt st
    rw [attemptLoop]
    dsimp only
    split_ifs <;> simp
  | succ k ih =>
    intro attempt st
    rw [attemptLoop]
    dsimp only
    split_ifs <;> simp
    have := ih (attempt + 1) st
    omega

theorem attemptLoop_all_conflict (env : Env) (st : Store)
    (hsess : ∀ a, env.sessionOk a = true) (hwriter : ∀ a, env.writerOk a = true)
    (hlive : ∀ a, env.ctxDone a = false)
    (herr : ∀ a st1, (env.handler a st1).1.errorStatus ≠ 0)
    (hconf : ∀ a st1, (env.handler a st1).1.failedWithWriteConflict = true) :
    ∀ (r attempt : Nat),
      attemptLoop env st attempt r =
        { sinkWrites := [{ status := (env.handler (attempt + r) st).1.errorStatus, body := (env.handler (attempt + r) st).1.errorBuffer }],
          durable := st, handlerCalls := r + 1 } := by
  intro r
  induction r with
  | zero =>
    intro attempt
    rw [attemptLoop]
    dsimp only
    simp [hsess attempt, hwriter attempt, hlive attempt, herr attempt st,
      hconf attempt st]
  | succ k ih =>
    intro attempt
    rw [attemptLoop]
    dsimp only
    have harith : attempt + 1 + k = attempt + (k + 1) := by omega
    simp [hsess attempt, hwriter attempt, hlive attempt, herr attempt st,
      hconf attempt st, ih (attempt + 1), harith]

/-- C2 counterexample: in the environment in which every attempt records a
conflict-classified error, the body reads fine, sessions always start and
the deadline never expires, the orchestrator invokes the handler six times,
not five. -/
theorem withDBSession_six_attempts :
    (WithDBSession allConflictEnv Store.empty).handlerCalls = 6 ∧
    ¬ (WithDBSession allConflictEnv Store.empty).handlerCalls = 5 :=
  ⟨rfl, by decide⟩

/-- C2 (amended): with the retry constant DBTxnRetryCount = 5, if every
attempt records a conflict-classified error and the caller's deadline never
expires, WithDBSession invokes the handler exactly DBTxnRetryCount + 1 = 6
times (the initial attempt followed by DBTxnRetryCount retries), performs no
durable writes, and flushes the last attempt's recorded conflict error as
the single terminal response. -/
theorem bounded_retry_amended (env : Env) (st : Store)
    (hbody : env.bodyReadOk = true)
    (hsess : ∀ a, env.sessionOk a = true) (hwriter : ∀ a, env.writerOk a = true)
    (hlive : ∀ a, env.ctxDone a = false)
    (herr : ∀ a st1, (env.handler a st1).1.errorStatus ≠ 0)
    (hconf : ∀ a st1, (env.handler a st1).1.failedWithWriteConflict = true) :
    (WithDBSession env st).handlerCalls = DBTxnRetryCount + 1 ∧
    (WithDBSession env st).durable = st ∧
    (WithDBSession env st).sinkWrites =
      [{ status := (env.handler DBTxnRetryCount st).1.errorStatus, body := (env.handler DBTxnRetryCount st).1.errorBuffer }] := by
  have hrun := attemptLoop_all_conflict env st hsess hwriter hlive herr hconf
    DBTxnRetryCount 0
  rw [WithDBSession, if_pos hbody, hrun]
  simp

/-- C2 witness: the amended bounded-retry statement evaluated on the
all-conflict environment and the empty store. -/
theorem bounded_retry_amended_witness :
    (WithDBSession allConflictEnv Store.empty).handlerCalls = DBTxnRetryCount + 1 ∧
    (WithDBSession allConflictEnv Store.empty).durable = Store.empty ∧
    (WithDBSession allConflictEnv Store.empty).sinkWrites =
      [{ status := (allConflictEnv.handler DBTxnRetryCount Store.empty).1.errorStatus, body := (allConflictEnv.handler DBTxnRetryCount Store.empty).1.errorBuffer }] :=
  bounded_retry_amended allConflictEnv Store.empty rfl (fun _ => rfl) (fun _ => rfl)
    (fun _ => rfl) (fun _ _ => (by decide : (500:Nat) ≠ 0)) (fun _ _ => rfl)

/-- C8: a request attempt whose Buffering Response Adapter records an error
that is not conflict-classified is terminal: the orchestrator makes no
further attempt, the attempt's unit of work aborts (the durable store is
unchanged), and the attempt's recorded error status and body are flushed to
the real sink exactly once. -/
theorem nonconflict_error_terminal (env : Env) (st : Store) (attempt r : Nat)
    (hsess : env.sessionOk attempt = true) (hwriter : env.writerOk attempt = true)
    (herr : (env.handler attempt st).1.errorStatus ≠ 0)
    (hnc : (env.handler attempt st).1.failedWithWriteConflict = false) :
    attemptLoop env st attempt r =
      { sinkWrites := [{ status := (env.handler attempt st).1.errorStatus, body := (env.handler attempt st).1.errorBuffer }],
        durable := st, handlerCalls := 1 } := by
  rw [attemptLoop]
  dsimp only
  simp [hsess, hwriter, herr, hnc]

/-- C8 witness: the non-conflict environment flushes its first attempt's
recorded error and stops. -/
theorem nonconflict_error_terminal_witness :
    attemptLoop fatalEnv Store.empty 0 DBTxnRetryCount =
      { sinkWrites := [{ status := (fatalEnv.handler 0 Store.empty).1.errorStatus, body := (fatalEnv.handler 0 Store.empty).1.errorBuffer }],
        durable := Store.empty, handlerCalls := 1 } :=
  nonconflict_error_terminal fatalEnv Store.empty 0 DBTxnRetryCount rfl rfl
    (by decide) rfl

/-- C9: for every request handled by the retry orchestrator — whatever the
handler records, however the session and transaction setup behave — the real
response sink receives exactly one write, at the flush point of the terminal
attempt; the Buffering Response Adapter, modelled from the spec, performs no
sink write during a handler invocation. -/
theorem single_flush (env : Env) (st : Store) :
    (WithDBSession env st).sinkWrites.length = 1 := by
  rw [WithDBSession]
  split
  · exact attemptLoop_sink_length env DBTxnRetryCount 0 st
  · rfl

/-- C10: the retry loop of WithDBSession terminates — it recurses on the
remaining-retries counter, started at DBTxnRetryCount and strictly
decremented on every retry — and consequently the wrapped handler is invoked
at most DBTxnRetryCount + 1 = 6 times per request, whatever the attempts
record. -/
theorem handler_calls_bounded (env : Env) (st : Store) :
    (WithDBSession env st).handlerCalls ≤ DBTxnRetryCount + 1 := by
  rw [WithDBSession]
  split
  · exact attemptLoop_calls_le env DBTxnRetryCount 0 st
  · simp

end Promoter
